import Mathlib

set_option maxHeartbeats 1000000

namespace WeatherPipeline

/-! Shallow embedding of the weather MLOps pipeline
(`src/data_ingestion/parsers.py`, `src/features/feature_builder.py`,
`src/storage/s3_client.py`).

Python floats are modelled as exact rationals (`ℚ`); the float constants the
code uses (0.5, 0.7, 0.3, -999.0, band bounds) are all exactly representable,
and the one composite value the claims touch (75*0.7 + 50*0.3) evaluates to
exactly 67.5 in IEEE double as well, so this does not change any claim.
Pandas timestamps are modelled as minute-precision UTC calendar datetimes.
`datetime.now()` (used by the parsers as a timestamp fallback and for
`created_at`) is modelled as an explicit `now` parameter. -/

/-- A minute-precision UTC calendar timestamp (models `datetime` /
`pandas.Timestamp` values flowing through the pipeline). -/
structure DT where
  y : Nat
  mo : Nat
  d : Nat
  h : Nat
  mi : Nat
deriving DecidableEq, Repr

/-- Chronological sort key of a timestamp: the lexicographic tuple of its
fields, as a list. -/
def DT.key (t : DT) : List Nat := [t.y, t.mo, t.d, t.h, t.mi]

/-- Gregorian leap-year rule. -/
def isLeap (y : Nat) : Bool := y % 4 = 0 && (y % 100 ≠ 0 || y % 400 = 0)

/-- Number of days in a month of the proleptic Gregorian calendar. -/
def daysInMonth (y m : Nat) : Nat :=
  if m = 2 then (if isLeap y then 29 else 28)
  else if m = 4 ∨ m = 6 ∨ m = 9 ∨ m = 11 then 30
  else 31

/-- Days in year `y` strictly before month `m`. -/
def daysBeforeMonth (y m : Nat) : Nat :=
  (List.range (m - 1)).foldl (fun acc i => acc + daysInMonth y (i + 1)) 0

/-- Day of week with Monday = 0 (the convention of `pandas.Series.dt.dayofweek`),
computed from the day count since 0001-01-01 (a Monday) in the proleptic
Gregorian calendar. -/
def DT.dayOfWeek (t : DT) : Nat :=
  (365 * (t.y - 1) + ((t.y - 1) / 4 - (t.y - 1) / 100 + (t.y - 1) / 400)
    + daysBeforeMonth t.y t.mo + (t.d - 1)) % 7

/-! String primitives are defined structurally over the character list of a
`String` (rather than through the byte-position-based core library
functions), both so that they mirror Python's string semantics directly and
so that every definition evaluates on concrete inputs. -/

/-- Emptiness of a string. -/
def pyIsEmptyStr (s : String) : Bool := s.data.isEmpty

/-- Character count of a string (Python's `len`). -/
def pyLen (s : String) : Nat := s.data.length

/-- Drop the first `n` characters. -/
def strDrop (s : String) (n : Nat) : String := ⟨s.data.drop n⟩

/-- Take the first `n` characters. -/
def strTake (s : String) (n : Nat) : String := ⟨s.data.take n⟩

/-- Models Python's `str.startswith`. -/
def pyStartsWith (pre s : String) : Bool := s.data.take pre.data.length == pre.data

/-- Models Python's `str.endswith`. -/
def pyEndsWith (suf s : String) : Bool :=
  s.data.reverse.take suf.data.length == suf.data.reverse

/-- The ASCII characters Python's `str.isspace` (and hence default
`str.strip`/`str.split` and `float()`'s surrounding-whitespace rule) treats
as whitespace: the six common escapes plus the separator controls
`\x1c`-`\x1f`. -/
def chIsPyWs (c : Char) : Bool :=
  c = ' ' || c = '\t' || c = '\n' || c = '\x0d' || c = '\x0b' || c = '\x0c'
    || c = '\x1c' || c = '\x1d' || c = '\x1e' || c = '\x1f'

/-- The ASCII whitespace `float()` tolerates around a literal: unlike
`str.strip`, it does not accept the separator controls `\x1c`-`\x1f`. -/
def chIsFloatWs (c : Char) : Bool :=
  c = ' ' || c = '\t' || c = '\n' || c = '\x0d' || c = '\x0b' || c = '\x0c'

/-- Whether every character of a string is ASCII. The string primitives here
are exact models of Python's behaviour on ASCII strings; theorems whose
hypotheses depend on a Python check failing carry this as an explicit scope
hypothesis, because Python's `isdigit`/`float` additionally accept Unicode
decimal digits that are outside this model. -/
def isAsciiStr (s : String) : Bool := s.data.all (fun c => c.toNat < 128)

/-- Strip leading and trailing characters satisfying `p` from a character
list. -/
def stripWithPred (p : Char → Bool) (cs : List Char) : List Char :=
  ((cs.dropWhile p).reverse.dropWhile p).reverse

/-- Strip leading and trailing whitespace from a character list. -/
def pyStripList (cs : List Char) : List Char := stripWithPred chIsPyWs cs

/-- Models Python's `str.strip()`. -/
def pyStrip (s : String) : String := ⟨pyStripList s.data⟩

/-- Split a character list at every separator position (Python's
`str.split(sep)` grouping: `n` separators yield `n+1` groups, empty groups
kept). The result is always nonempty. -/
def splitOnPredList (p : Char → Bool) : List Char → List (List Char)
  | [] => [[]]
  | c :: cs =>
    let r := splitOnPredList p cs
    if p c then [] :: r
    else
      match r with
      | [] => [[c]]
      | g :: gs => (c :: g) :: gs

/-- Models Python's `str.split(sep)` for a one-character separator. -/
def pySplitOnChar (sep : Char) (s : String) : List String :=
  (splitOnPredList (fun c => c = sep) s.data).map String.mk

/-- A Python value as it appears in a record field: `None`, a string, or a
number (int/float conflated into `ℚ`). -/
inductive PyVal where
  | vnone : PyVal
  | vstr (s : String) : PyVal
  | vnum (q : ℚ) : PyVal
deriving DecidableEq, Repr

/-- Python truthiness of a record field value. -/
def pyTruthy : PyVal → Bool
  | .vnone => false
  | .vstr s => !(pyIsEmptyStr s)
  | .vnum q => q != 0

/-- Models `str.isdigit()`, exactly for ASCII content: nonempty and all
characters decimal digits. (Python's `isdigit` additionally accepts Unicode
digit characters; theorems whose conclusions depend on this check failing
restrict themselves to ASCII strings through `isAsciiStr`.) -/
def pyIsdigit (s : String) : Bool := !(pyIsEmptyStr s) && s.data.all Char.isDigit

/-- Models `s.replace('.', '').replace('-', '')`: drop every dot and dash. -/
def stripDotDash (s : String) : String :=
  String.mk (s.data.filter (fun c => c ≠ '.' && c ≠ '-'))

/-- Numeric value of a digit string. -/
def digitsToNat (s : String) : Nat :=
  s.data.foldl (fun acc c => acc * 10 + (c.toNat - 48)) 0

/-- Continuation of a digit group after its leading digit: digits with single
underscores strictly between digits, as Python numeric literals allow. -/
def digitTail : List Char → Bool
  | [] => true
  | '_' :: c :: rest => c.isDigit && digitTail rest
  | c :: rest => c.isDigit && digitTail rest

/-- A Python digit group: nonempty, starts and ends with a digit, single
underscores only between digits (so `1_000` is accepted, `_1`, `1_`, `1__0`
are not). -/
def digitGroupOk : List Char → Bool
  | [] => false
  | c :: rest => c.isDigit && digitTail rest

/-- Numeric value of a digit group, ignoring its underscores. -/
def digitsValL (cs : List Char) : Nat :=
  cs.foldl (fun acc c => if c = '_' then acc else acc * 10 + (c.toNat - 48)) 0

/-- Number of digits of a digit group (underscores excluded). -/
def digitCountL (cs : List Char) : Nat := (cs.filter (fun c => c ≠ '_')).length

/-- The exponent part of a Python float literal after the `e`/`E`: an
optionally signed digit group. -/
def parseExp? : List Char → Option ℤ
  | '+' :: rest => if digitGroupOk rest then some (digitsValL rest : ℤ) else none
  | '-' :: rest => if digitGroupOk rest then some (-(digitsValL rest : ℤ)) else none
  | cs => if digitGroupOk cs then some (digitsValL cs : ℤ) else none

/-- The mantissa of a Python float literal: a digit group with at most one
decimal point and at least one digit overall (`1`, `1.`, `.5`, `1_000.25`). -/
def parseMantissa? (cs : List Char) : Option ℚ :=
  match splitOnPredList (fun c => c = '.') cs with
  | [a] => if digitGroupOk a then some ((digitsValL a : ℚ)) else none
  | [a, b] =>
    if (a.isEmpty || digitGroupOk a) && (b.isEmpty || digitGroupOk b)
        && !(a.isEmpty && b.isEmpty) then
      some ((digitsValL a : ℚ) + (digitsValL b : ℚ) / (10 : ℚ) ^ digitCountL b)
    else none
  | _ => none

/-- An unsigned finite Python float literal: mantissa with an optional
`e`/`E` exponent. -/
def parseUnsignedQ? (cs : List Char) : Option ℚ :=
  match splitOnPredList (fun c => c = 'e' || c = 'E') cs with
  | [m] => parseMantissa? m
  | [m, ex] =>
    match parseMantissa? m, parseExp? ex with
    | some q, some z => some (q * (10 : ℚ) ^ z)
    | _, _ => none
  | _ => none

/-- The value classes a successful Python `float(s)` call can produce from a
string literal: a finite value, a signed infinity, or NaN. -/
inductive PyFloatLit where
  | fin (q : ℚ)
  | inf (neg : Bool)
  | nan
deriving DecidableEq, Repr

/-- Models Python's `float(s)` acceptance on ASCII strings, exactly:
surrounding whitespace, an optional sign, then either a finite literal
(digit groups with underscores, optional decimal point, optional exponent)
or one of the `inf`/`infinity`/`nan` words, case-insensitive. `none` means
`float` raises `ValueError`. -/
def pyFloatLit? (s : String) : Option PyFloatLit :=
  let t := stripWithPred chIsFloatWs s.data
  let neg := match t with
    | '-' :: _ => true
    | _ => false
  let u := match t with
    | '-' :: rest => rest
    | '+' :: rest => rest
    | _ => t
  let low := u.map Char.toLower
  if low == "inf".data || low == "infinity".data then some (.inf neg)
  else if low == "nan".data then some .nan
  else
    match parseUnsignedQ? u with
    | some q => some (.fin (if neg then -q else q))
    | none => none

/-- The finite value of a Python float literal. The non-finite accepted
literals are conflated with the missing path here: infinities are outside a
rational value model (no theorem below quantifies over an input that stores
one), and a stored NaN is observationally identical to missing in this
pipeline, since every downstream consumer reads it through `pd.isna` or a
NaN-false comparison. -/
def parsePyFloat? (s : String) : Option ℚ :=
  match pyFloatLit? s with
  | some (.fin q) => some q
  | _ => none

/-- Models `float(v)` on a record field value: numbers coerce to themselves,
strings are parsed, `None` raises (`none` here). -/
def pyFloat? : PyVal → Option ℚ
  | .vnone => none
  | .vstr s => parsePyFloat? s
  | .vnum q => some q

/-! ## Parsers (`src/data_ingestion/parsers.py`) -/

/-- A parsed observation record, the common output shape of the three
parsers (`uva_value`/`euv_value` are only populated by the uv parser). -/
structure ObsRecord where
  station_id : String
  observed_at : DT
  category : String
  value : PyVal
  uva_value : PyVal := .vnone
  euv_value : PyVal := .vnone
  unit : String
  created_at : DT
  raw_line : String
deriving DecidableEq, Repr

/-- Models `raw_data.strip().split('\x0a')` (strip whole-payload whitespace,
then split on newlines; an empty payload yields `[""]`, as in Python). -/
def splitLinesPy (raw : String) : List String := pySplitOnChar '\n' (pyStrip raw)

/-- The line filter shared by all three parsers: keep lines that do not start
with `#` and are not blank after stripping. -/
def keepLine (l : String) : Bool := !(pyStartsWith "#" l) && !(pyIsEmptyStr (pyStrip l))

/-- Models Python's no-argument `str.split()`: split on whitespace runs,
discarding empty tokens. -/
def pySplitWs (l : String) : List String :=
  ((splitOnPredList chIsPyWs l.data).map String.mk).filter (fun p => !(pyIsEmptyStr p))

/-- Natural-number value of the `len`-character slice of `s` at offset `i`. -/
def sliceNat (s : String) (i len : Nat) : Nat := digitsToNat (strTake (strDrop s i) len)

/-- Models `datetime.strptime(s, "%Y%m%d%H%M")`: a 12-digit string with
in-range calendar fields, `none` where strptime raises `ValueError`. -/
def strptimeYmdHM? (s : String) : Option DT :=
  if pyLen s = 12 && s.data.all Char.isDigit then
    let y := sliceNat s 0 4
    let mo := sliceNat s 4 2
    let d := sliceNat s 6 2
    let h := sliceNat s 8 2
    let mi := sliceNat s 10 2
    if 1 ≤ y && 1 ≤ mo && mo ≤ 12 && 1 ≤ d && d ≤ daysInMonth y mo
        && h ≤ 23 && mi ≤ 59 then
      some ⟨y, mo, d, h, mi⟩
    else none
  else none

/-- Embeds `_parse_datetime_from_line`: 12-digit timestamps parse directly,
10-digit ones are century-prefixed with "20", anything else (or a strptime
failure) falls back to `now`. -/
def parse_datetime_from_line (now : DT) (s : String) : DT :=
  if pyLen s = 12 then (strptimeYmdHM? s).getD now
  else if pyLen s = 10 then (strptimeYmdHM? ⟨"20".data ++ s.data⟩).getD now
  else now

/-- The per-line body of `parse_asos_raw`: whitespace-split, require at least
3 tokens, keep the value token as a raw string. -/
def asosLineRecords (now : DT) (line : String) : List ObsRecord :=
  let parts := pySplitWs line
  if parts.length ≥ 3 then
    [{ station_id := parts.getD 1 "unknown"
       observed_at :=
         if pyIsEmptyStr (parts.getD 0 "") then now
         else parse_datetime_from_line now (parts.getD 0 "")
       category := "asos"
       value := .vstr (parts.getD 2 "")
       unit := ""
       created_at := now
       raw_line := line }]
  else []

/-- Embeds `parse_asos_raw`: filter comment/blank lines, then one record per
surviving line with at least 3 whitespace tokens. The Python-level
`try/except` wrapper is vacuous here: every step of the loop is total. -/
def parse_asos_raw (now : DT) (raw : String) : List ObsRecord :=
  ((splitLinesPy raw).filter keepLine).flatMap (asosLineRecords now)

/-- The per-line body of `parse_pm10_raw`: comma-split, require at least 3
tokens, value kept only when it is a nonempty digit string (then an int). -/
def pm10LineRecords (now : DT) (line : String) : List ObsRecord :=
  let parts := pySplitOnChar ',' line
  if parts.length ≥ 3 then
    let p0 := parts.getD 0 ""
    let datetime_str := if pyIsEmptyStr p0 then "" else pyStrip p0
    let station_id := pyStrip (parts.getD 1 "unknown")
    let pm10str := pyStrip (parts.getD 2 "")
    let value : PyVal :=
      if pyIsdigit pm10str then .vnum (digitsToNat pm10str) else .vnone
    [{ station_id := station_id
       observed_at :=
         if pyIsEmptyStr datetime_str then now
         else parse_datetime_from_line now datetime_str
       category := "pm10"
       value := value
       unit := "μg/m³"
       created_at := now
       raw_line := line }]
  else []

/-- Embeds `parse_pm10_raw`. -/
def parse_pm10_raw (now : DT) (raw : String) : List ObsRecord :=
  ((splitLinesPy raw).filter keepLine).flatMap (pm10LineRecords now)

/-- The per-line body of `parse_uv_raw`: whitespace-split, require at least 5
tokens; the three uv readings are kept as raw string tokens (no sentinel
handling happens in the parser). -/
def uvLineRecords (now : DT) (line : String) : List ObsRecord :=
  let parts := pySplitWs line
  if parts.length ≥ 5 then
    [{ station_id := parts.getD 1 "unknown"
       observed_at :=
         if pyIsEmptyStr (parts.getD 0 "") then now
         else parse_datetime_from_line now (parts.getD 0 "")
       category := "uv"
       value := .vstr (parts.getD 2 "")
       uva_value := .vstr (parts.getD 3 "")
       euv_value := .vstr (parts.getD 4 "")
       unit := "W/m²"
       created_at := now
       raw_line := line }]
  else []

/-- Embeds `parse_uv_raw`. -/
def parse_uv_raw (now : DT) (raw : String) : List ObsRecord :=
  ((splitLinesPy raw).filter keepLine).flatMap (uvLineRecords now)

/-! ## Fusion engine (`create_ml_dataset`, feature_builder.py lines 10-154) -/

/-- One row of a per-source input list to `create_ml_dataset`, after the
`observed_at` → `datetime` conversion: `datetime` is `none` when the source
dict carried no usable timestamp. -/
structure SourceRow where
  station_id : String
  datetime : Option DT
  value : PyVal
  uva_value : PyVal := .vnone
  euv_value : PyVal := .vnone
deriving DecidableEq, Repr

/-- The DataFrame row `create_ml_dataset` sees for a parser record:
`pd.to_datetime` of the parser's `observed_at` (always present). -/
def obsToSourceRow (r : ObsRecord) : SourceRow :=
  { station_id := r.station_id
    datetime := some r.observed_at
    value := r.value
    uva_value := r.uva_value
    euv_value := r.euv_value }

/-- A fused record as built by `create_ml_dataset`. -/
structure FusedRec where
  station_id : String
  datetime : Option DT
  temperature : Option ℚ
  pm10 : Option ℚ
  uv_uvb : Option ℚ
  uv_uva : Option ℚ
  uv_euv : Option ℚ
deriving DecidableEq, Repr

/-- The merge key of a fused record. -/
def recKey (r : FusedRec) : String × Option DT := (r.station_id, r.datetime)

/-- The merge key of a source row. -/
def srcKey (r : SourceRow) : String × Option DT := (r.station_id, r.datetime)

/-- The asos value guard
`row.get("value") and str(row.get("value")).replace('.', '').replace('-', '').isdigit()`:
truthiness, then the isdigit check on the stripped string. For a numeric
value Python's plain decimal repr strips to digits, so the check reduces to
truthiness (scientific-notation reprs are not modelled; the pipeline only
ever passes strings or `None` here). -/
def asosValueCheck : PyVal → Bool
  | .vnone => false
  | .vstr s => !(pyIsEmptyStr s) && pyIsdigit (stripDotDash s)
  | .vnum q => q != 0

/-- The asos loop body (feature_builder.py lines 34-47): always append a new
record; if the guard passes but `float` raises, the bare `except` drops the
row. -/
def asosStep (st : List FusedRec) (row : SourceRow) : List FusedRec :=
  if asosValueCheck row.value then
    match pyFloat? row.value with
    | some q => st ++ [⟨row.station_id, row.datetime, some q, none, none, none, none⟩]
    | none => st
  else st ++ [⟨row.station_id, row.datetime, none, none, none, none, none⟩]

/-- The pm10 value coercion (lines 59-63): `None` stays missing, otherwise
`float` with failures becoming missing. -/
def pm10Coerce : PyVal → Option ℚ
  | .vnone => none
  | v => pyFloat? v

/-- The record-matching test of the fusion loops:
`record["station_id"] == station_id and record["datetime"] == datetime_val`
(Python `None == None` is true, matching `Option` equality). -/
def keyMatch (station_id : String) (datetime : Option DT) (r : FusedRec) : Bool :=
  r.station_id == station_id && r.datetime == datetime

/-- Update the first list element satisfying `p` by `f`; `none` when no
element matches (models the `found` flag plus `break` of the fusion loops). -/
def updFirst (p : FusedRec → Bool) (f : FusedRec → FusedRec) :
    List FusedRec → Option (List FusedRec)
  | [] => none
  | r :: rs => if p r then some (f r :: rs) else (updFirst p f rs).map (r :: ·)

/-- The pm10 loop body (lines 51-85): update the first record with the same
(station_id, datetime) key, else append a new one. -/
def pm10Step (st : List FusedRec) (row : SourceRow) : List FusedRec :=
  let v := pm10Coerce row.value
  match updFirst (keyMatch row.station_id row.datetime) (fun r => { r with pm10 := v }) st with
  | some st' => st'
  | none => st ++ [⟨row.station_id, row.datetime, none, v, none, none, none⟩]

/-- The uv value coercion (lines 100-114): `None` stays missing; otherwise
`float`, with failures missing and the sentinel −999.0 normalised to
missing. -/
def uvCoerce : PyVal → Option ℚ
  | .vnone => none
  | v =>
    match pyFloat? v with
    | some q => if q = -999 then none else some q
    | none => none

/-- The uv loop body (lines 89-138): update all three uv fields of the first
key-matching record, else append a new one. -/
def uvStep (st : List FusedRec) (row : SourceRow) : List FusedRec :=
  let uvb := uvCoerce row.value
  let uva := uvCoerce row.uva_value
  let euv := uvCoerce row.euv_value
  match updFirst (keyMatch row.station_id row.datetime)
      (fun r => { r with uv_uvb := uvb, uv_uva := uva, uv_euv := euv }) st with
  | some st' => st'
  | none => st ++ [⟨row.station_id, row.datetime, none, none, uvb, uva, euv⟩]

/-- The per-source input to `create_ml_dataset`. -/
structure RawData where
  asos : List SourceRow := []
  pm10 : List SourceRow := []
  uv : List SourceRow := []
deriving Repr

/-- The `all_records` accumulation of `create_ml_dataset`: asos rows, then
pm10 rows, then uv rows, in source order. -/
def fuseAll (raw : RawData) : List FusedRec :=
  raw.uv.foldl uvStep (raw.pm10.foldl pm10Step (raw.asos.foldl asosStep []))

/-! ## Feature engineering (`add_engineered_features`, lines 157-249) -/

/-- The `temp_category` labels. -/
inductive TempCat where
  | very_cold | cold | mild | warm | hot
deriving DecidableEq, Repr

/-- The `pm10_grade` labels. -/
inductive Pm10Grade where
  | good | moderate | unhealthy | very_unhealthy
deriving DecidableEq, Repr

/-- Models `pd.cut` with `right=True` (the default used by the code): the
label of the half-open interval `(bins[i], bins[i+1]]` containing `x`, `none`
when `x` falls outside every bin. -/
def pdCut {α : Type} (x : ℚ) : List ℚ → List α → Option α
  | lo :: hi :: bs, lab :: labs =>
      if lo < x ∧ x ≤ hi then some lab else pdCut x (hi :: bs) labs
  | _, _ => none

/-- The season dict-map of lines 181-186 (months outside 1-12 map to NaN,
hence `none`). -/
def seasonOf (m : Nat) : Option String :=
  if m = 12 || m = 1 || m = 2 then some "winter"
  else if m = 3 || m = 4 || m = 5 then some "spring"
  else if m = 6 || m = 7 || m = 8 then some "summer"
  else if m = 9 || m = 10 || m = 11 then some "autumn"
  else none

/-- The metro station-code lookup table (line 209). -/
def metro_stations : List String :=
  ["100", "101", "102", "104", "105", "108", "112", "119", "129", "133"]

/-- The coastal station-code lookup table (line 210). -/
def coastal_stations : List String :=
  ["102", "104", "115", "130", "131", "152", "156", "159", "168"]

/-- The region bucket of lines 216-221: first character of the station id
mapped through the region dict, `fillna('other')`. -/
def regionOf (sid : String) : String :=
  match sid.toList with
  | [] => "other"
  | c :: _ =>
    if c = '1' then "central"
    else if c = '2' then "south"
    else if c = '3' then "east"
    else if c = '9' then "west"
    else "other"

/-- Hour of a row's timestamp (`df['datetime'].dt.hour`; NaN on a missing
timestamp). -/
def hourOf (r : FusedRec) : Option Nat := r.datetime.map DT.h

/-- Day of week of a row's timestamp (`dt.dayofweek`, Monday = 0). -/
def dowOf (r : FusedRec) : Option Nat := r.datetime.map DT.dayOfWeek

/-- Month of a row's timestamp (`dt.month`). -/
def monthOf (r : FusedRec) : Option Nat := r.datetime.map DT.mo

/-- `is_rush_hour` (line 172); `isin` on NaN is False. -/
def isRushHourRow (r : FusedRec) : Bool :=
  (hourOf r).elim false (fun h => h = 7 || h = 8 || h = 9 || h = 18 || h = 19 || h = 20)

/-- `is_weekend` (line 178); a NaN comparison is False. -/
def isWeekendRow (r : FusedRec) : Bool :=
  (dowOf r).elim false (fun d0 => decide (5 ≤ d0))

/-- `temp_category` (lines 191-195): `pd.cut` over the sentinel-bounded bins
`[-999, 0, 10, 20, 30, 999]`; missing temperature gets no category. -/
def tempCategoryOf (t : Option ℚ) : Option TempCat :=
  t.bind (fun x => pdCut x [-999, 0, 10, 20, 30, 999]
    [.very_cold, .cold, .mild, .warm, .hot])

/-- `temp_extreme` (line 201); NaN comparisons are False. -/
def tempExtremeOf (t : Option ℚ) : Bool :=
  t.elim false (fun x => decide (x < 0 ∨ 30 < x))

/-! ## Comfort score (`calculate_comfort_score`, lines 252-296) -/

/-- The per-row inputs `calculate_comfort_score` reads (the five columns it
uses; in the pipeline all of them are present). -/
structure ScoreInput where
  temperature : Option ℚ
  pm10 : Option ℚ
  is_rush_hour : Bool
  is_weekend : Bool
  temp_extreme : Bool
deriving DecidableEq, Repr

/-- The temperature sub-score lambda (lines 259-266); missing maps to 100. -/
def tempSubScore : Option ℚ → ℚ
  | none => 100
  | some x =>
    if 15 ≤ x ∧ x ≤ 22 then 90
    else if 10 ≤ x ∧ x ≤ 25 then 70
    else if 5 ≤ x ∧ x ≤ 30 then 50
    else if 0 ≤ x ∧ x ≤ 35 then 20
    else 10

/-- The pm10 sub-score lambda (lines 271-278); missing maps to 50. -/
def pm10SubScore : Option ℚ → ℚ
  | none => 50
  | some x =>
    if x ≤ 15 then 90
    else if x ≤ 35 then 70
    else if x ≤ 75 then 50
    else if x ≤ 150 then 30
    else 10

/-- Models `np.clip(x, lo, hi)` on a single value: values below `lo` become
`lo`, values above `hi` become `hi`. -/
def npClip (x lo hi : ℚ) : ℚ := if x < lo then lo else if hi < x then hi else x

/-- Embeds `calculate_comfort_score` row-wise: baseline 50, the two blends,
the three flag adjustments, then `np.clip(scores, 0, 100)`. -/
def calculate_comfort_score (r : ScoreInput) : ℚ :=
  let s0 : ℚ := 50
  let s1 := s0 * (1 / 2 : ℚ) + tempSubScore r.temperature * (1 / 2 : ℚ)
  let s2 := s1 * (7 / 10 : ℚ) + pm10SubScore r.pm10 * (3 / 10 : ℚ)
  let s3 := s2 - (if r.is_rush_hour then 10 else 0)
  let s4 := s3 + (if r.is_weekend then 5 else 0)
  let s5 := s4 - (if r.temp_extreme then 20 else 0)
  npClip s5 0 100

/-- A feature-engineered row: the fused record plus every derived column of
`add_engineered_features`. -/
structure FeatRow where
  base : FusedRec
  hour : Option Nat
  day_of_week : Option Nat
  month : Option Nat
  is_rush_hour : Bool
  is_morning_rush : Bool
  is_evening_rush : Bool
  is_weekday : Bool
  is_weekend : Bool
  season : Option String
  temp_category : Option TempCat
  temp_comfort : Option ℚ
  temp_extreme : Bool
  heating_needed : Bool
  cooling_needed : Bool
  is_metro_area : Bool
  is_coastal : Bool
  region : String
  pm10_grade : Option Pm10Grade
  mask_needed : Bool
  outdoor_activity_ok : Bool
  has_uv : Bool
  sun_protection_needed : Bool
  comfort_score : ℚ
deriving DecidableEq, Repr

/-- The row-wise content of `add_engineered_features` (every derived column
is a pure function of its own row, so the column assignments are a map). -/
def addFeaturesRow (r : FusedRec) : FeatRow :=
  { base := r
    hour := hourOf r
    day_of_week := dowOf r
    month := monthOf r
    is_rush_hour := isRushHourRow r
    is_morning_rush := (hourOf r).elim false (fun h => h = 7 || h = 8 || h = 9)
    is_evening_rush := (hourOf r).elim false (fun h => h = 18 || h = 19 || h = 20)
    is_weekday := (dowOf r).elim false (fun d0 => decide (d0 < 5))
    is_weekend := isWeekendRow r
    season := (monthOf r).bind seasonOf
    temp_category := tempCategoryOf r.temperature
    temp_comfort := r.temperature.map (fun x => 20 - |x - 20|)
    temp_extreme := tempExtremeOf r.temperature
    heating_needed := r.temperature.elim false (fun x => decide (x < 10))
    cooling_needed := r.temperature.elim false (fun x => decide (25 < x))
    is_metro_area := metro_stations.contains r.station_id
    is_coastal := coastal_stations.contains r.station_id
    region := regionOf r.station_id
    pm10_grade := r.pm10.bind (fun x => pdCut x [0, 30, 80, 150, 999]
      [.good, .moderate, .unhealthy, .very_unhealthy])
    mask_needed := r.pm10.elim false (fun x => decide (50 < x))
    outdoor_activity_ok := r.pm10.elim false (fun x => decide (x ≤ 80))
    has_uv := r.uv_uvb.elim false (fun x => decide (0 < x))
    sun_protection_needed := r.uv_uvb.elim false (fun x => decide ((1 : ℚ) / 50 < x))
    comfort_score := calculate_comfort_score
      ⟨r.temperature, r.pm10, isRushHourRow r, isWeekendRow r, tempExtremeOf r.temperature⟩ }

/-! ## Final ordering (lines 140-154) -/

/-- The sort key of an optional timestamp (missing first; such rows are
dropped before sorting anyway). -/
def odtKey : Option DT → List Nat
  | none => []
  | some t => DT.key t

/-- Strict lexicographic order on lists of naturals (chronological order of
timestamp field tuples). -/
def listNatLtB : List Nat → List Nat → Bool
  | [], [] => false
  | [], _ :: _ => true
  | _ :: _, [] => false
  | a :: as, b :: bs =>
    if a < b then true else if b < a then false else listNatLtB as bs

/-- Lexicographic less-or-equal on character lists by code point (the order
Python uses to compare the station-id strings). -/
def charListLeB : List Char → List Char → Bool
  | [], _ => true
  | _ :: _, [] => false
  | a :: as, b :: bs =>
    if a.toNat < b.toNat then true
    else if b.toNat < a.toNat then false
    else charListLeB as bs

/-- The sort order of `sort_values(["datetime", "station_id"])`:
chronological on the timestamp, then lexicographic on the station id. -/
def fusedLe (a b : FusedRec) : Prop :=
  listNatLtB (odtKey a.datetime) (odtKey b.datetime) = true ∨
    (odtKey a.datetime = odtKey b.datetime ∧
      charListLeB a.station_id.data b.station_id.data = true)

instance : DecidableRel fusedLe := fun a b =>
  inferInstanceAs (Decidable (_ = true ∨ (_ = _ ∧ _ = true)))

/-- Lexicographic comparison of natural lists is trichotomous. -/
lemma listNatLtB_total : ∀ a b : List Nat,
    listNatLtB a b = true ∨ listNatLtB b a = true ∨ a = b := by
  intro a
  induction a with
  | nil =>
    intro b
    cases b with
    | nil => exact Or.inr (Or.inr rfl)
    | cons y ys => exact Or.inl rfl
  | cons x xs ih =>
    intro b
    cases b with
    | nil => exact Or.inr (Or.inl rfl)
    | cons y ys =>
      rcases Nat.lt_trichotomy x y with h | h | h
      · exact Or.inl (by simp [listNatLtB, h])
      · subst h
        rcases ih ys with h2 | h2 | h2
        · exact Or.inl (by simp [listNatLtB, h2])
        · exact Or.inr (Or.inl (by simp [listNatLtB, h2]))
        · exact Or.inr (Or.inr (by rw [h2]))
      · exact Or.inr (Or.inl (by simp [listNatLtB, h]))

/-- Lexicographic comparison of natural lists is transitive. -/
lemma listNatLtB_trans : ∀ a b c : List Nat,
    listNatLtB a b = true → listNatLtB b c = true → listNatLtB a c = true := by
  intro a
  induction a with
  | nil =>
    intro b c hab hbc
    cases b with
    | nil => simp [listNatLtB] at hab
    | cons y ys =>
      cases c with
      | nil => simp [listNatLtB] at hbc
      | cons z zs => rfl
  | cons x xs ih =>
    intro b c hab hbc
    cases b with
    | nil => simp [listNatLtB] at hab
    | cons y ys =>
      cases c with
      | nil => simp [listNatLtB] at hbc
      | cons z zs =>
        simp only [listNatLtB] at hab hbc ⊢
        rcases Nat.lt_trichotomy x y with h1 | h1 | h1
        · rcases Nat.lt_trichotomy y z with h2 | h2 | h2
          · simp [Nat.lt_trans h1 h2]
          · subst h2; simp [h1]
          · rw [if_neg (by omega), if_pos h2] at hbc; cases hbc
        · subst h1
          rw [if_neg (by omega), if_neg (by omega)] at hab
          rcases Nat.lt_trichotomy x z with h2 | h2 | h2
          · simp [h2]
          · subst h2
            rw [if_neg (by omega), if_neg (by omega)] at hbc ⊢
            exact ih ys zs hab hbc
          · rw [if_neg (by omega), if_pos h2] at hbc; cases hbc
        · rw [if_neg (by omega), if_pos h1] at hab; cases hab

/-- Lexicographic less-or-equal on character lists is total. -/
lemma charListLeB_total : ∀ a b : List Char,
    charListLeB a b = true ∨ charListLeB b a = true := by
  intro a
  induction a with
  | nil => intro b; exact Or.inl rfl
  | cons x xs ih =>
    intro b
    cases b with
    | nil => exact Or.inr rfl
    | cons y ys =>
      rcases Nat.lt_trichotomy x.toNat y.toNat with h | h | h
      · exact Or.inl (by simp [charListLeB, h])
      · rcases ih ys with h2 | h2
        · exact Or.inl (by simp [charListLeB, h, h2])
        · exact Or.inr (by simp [charListLeB, h.symm, h2])
      · exact Or.inr (by simp [charListLeB, h])

/-- Lexicographic less-or-equal on character lists is transitive. -/
lemma charListLeB_trans : ∀ a b c : List Char,
    charListLeB a b = true → charListLeB b c = true → charListLeB a c = true := by
  intro a
  induction a with
  | nil => intro b c _ _; rfl
  | cons x xs ih =>
    intro b c hab hbc
    cases b with
    | nil => simp [charListLeB] at hab
    | cons y ys =>
      cases c with
      | nil => simp [charListLeB] at hbc
      | cons z zs =>
        simp only [charListLeB] at hab hbc ⊢
        rcases Nat.lt_trichotomy x.toNat y.toNat with h1 | h1 | h1
        · rcases Nat.lt_trichotomy y.toNat z.toNat with h2 | h2 | h2
          · simp [Nat.lt_trans h1 h2]
          · rw [← h2]; simp [h1]
          · rw [if_neg (by omega), if_pos h2] at hbc; cases hbc
        · rw [if_neg (by omega), if_neg (by omega)] at hab
          rcases Nat.lt_trichotomy y.toNat z.toNat with h2 | h2 | h2
          · simp [h1 ▸ h2]
          · rw [if_neg (by omega), if_neg (by omega)] at hbc
            rw [if_neg (by omega), if_neg (by omega)]
            exact ih ys zs hab hbc
          · rw [if_neg (by omega), if_pos h2] at hbc; cases hbc
        · rw [if_neg (by omega), if_pos h1] at hab; cases hab

instance : IsTotal FusedRec fusedLe := by
  constructor
  intro a b
  unfold fusedLe
  rcases listNatLtB_total (odtKey a.datetime) (odtKey b.datetime) with h | h | h
  · exact Or.inl (Or.inl h)
  · exact Or.inr (Or.inl h)
  · rcases charListLeB_total a.station_id.data b.station_id.data with hs | hs
    · exact Or.inl (Or.inr ⟨h, hs⟩)
    · exact Or.inr (Or.inr ⟨h.symm, hs⟩)

instance : IsTrans FusedRec fusedLe := by
  constructor
  intro a b c hab hbc
  unfold fusedLe at hab hbc ⊢
  rcases hab with h1 | ⟨h1, s1⟩
  · rcases hbc with h2 | ⟨h2, s2⟩
    · exact Or.inl (listNatLtB_trans _ _ _ h1 h2)
    · exact Or.inl (h2 ▸ h1)
  · rcases hbc with h2 | ⟨h2, s2⟩
    · exact Or.inl (h1 ▸ h2)
    · exact Or.inr ⟨h1.trans h2, charListLeB_trans _ _ _ s1 s2⟩

/-- Embeds `create_ml_dataset`: fuse the three sources in order, drop rows
lacking a datetime, sort by (datetime, station_id) ascending, then apply the
row-wise feature engineering. (The empty-input branch of the code returns an
empty frame, which is the same empty list here.) -/
def create_ml_dataset (raw : RawData) : List FeatRow :=
  let kept := (fuseAll raw).filter (fun r => r.datetime.isSome)
  (List.insertionSort fusedLe kept).map addFeaturesRow

/-! ## Artifact store (`src/storage/s3_client.py`) -/

/-- An object store state: keys with opaque payload ids (the parquet decode
is irrelevant to the claims, so a payload is abstracted to its id). -/
structure S3Store where
  objects : List (String × Nat)
deriving Repr

/-- `S3StorageClient.list_objects`: the keys under a prefix. -/
def list_objects (st : S3Store) (pre : String) : List String :=
  (st.objects.map Prod.fst).filter (fun k => pyStartsWith pre k)

/-- `S3StorageClient.get_object` followed by the parquet decode. -/
def get_object (st : S3Store) (key : String) : Option Nat :=
  (st.objects.find? (fun kv => kv.fst == key)).map Prod.snd

/-- Python's `sorted(keys)[-1]`: the lexicographic maximum of a nonempty
string list. -/
def pyMaxStr : List String → Option String
  | [] => none
  | k :: ks => some (ks.foldl (fun a b => if a < b then b else a) k)

/-- Embeds `WeatherDataS3Handler.load_latest_ml_dataset` (s3_client.py lines
105-123); note `days_back` is never read after binding. -/
def load_latest_ml_dataset (st : S3Store) (days_back : Nat) : Option Nat :=
  let keys := list_objects st "ml_dataset/"
  if keys.isEmpty then none
  else
    let parquet_keys := keys.filter (fun k => pyEndsWith ".parquet" k)
    if parquet_keys.isEmpty then none
    else (pyMaxStr parquet_keys).bind (get_object st)

/-- Stated from the claim's wording, for comparison with the code: the table
stored at the lexicographically greatest key ending in `.parquet` under the
`ml_dataset/` prefix, or `none` when no such key exists. -/
def latestParquetSpec (st : S3Store) : Option Nat :=
  let pk := (st.objects.map Prod.fst).filter
    (fun k => pyStartsWith "ml_dataset/" k && pyEndsWith ".parquet" k)
  (pyMaxStr pk).bind (get_object st)

/-! ## Helper lemmas -/

/-- When no list element satisfies `p`, `updFirst` reports no match. -/
lemma updFirst_eq_none (p : FusedRec → Bool) (f : FusedRec → FusedRec) :
    ∀ st : List FusedRec, st.all (fun r => !(p r)) = true → updFirst p f st = none := by
  intro st h
  induction st with
  | nil => rfl
  | cons r rs ih =>
    simp only [List.all_cons, Bool.and_eq_true, Bool.not_eq_true'] at h
    simp [updFirst, h.1, ih h.2]

/-- A successful `updFirst` with a key-preserving update leaves the key list
unchanged. -/
lemma updFirst_map_recKey (p : FusedRec → Bool) (f : FusedRec → FusedRec)
    (hf : ∀ r, recKey (f r) = recKey r) :
    ∀ st st' : List FusedRec, updFirst p f st = some st' →
      st'.map recKey = st.map recKey := by
  intro st
  induction st with
  | nil => intro st' h; cases h
  | cons r rs ih =>
    intro st' h
    by_cases hp : p r = true
    · simp only [updFirst, hp, if_true, Option.some.injEq] at h
      subst h
      simp [hf]
    · simp only [updFirst, hp, if_false, Bool.false_eq_true, Option.map_eq_some'] at h
      obtain ⟨rs', hrs', rfl⟩ := h
      simp [ih rs' hrs']

/-- A failed `updFirst` means no element satisfies `p`. -/
lemma updFirst_none_forall (p : FusedRec → Bool) (f : FusedRec → FusedRec) :
    ∀ st : List FusedRec, updFirst p f st = none → ∀ r ∈ st, p r = false := by
  intro st
  induction st with
  | nil => intro _ r hr; cases hr
  | cons r rs ih =>
    intro h s hs
    by_cases hp : p r = true
    · simp [updFirst, hp] at h
    · cases hs with
      | head => exact Bool.eq_false_iff.mpr hp
      | tail _ hs =>
        simp only [updFirst, hp, if_false, Bool.false_eq_true, Option.map_eq_none'] at h
        exact ih h s hs

/-- The match predicate holds exactly on records with the given key. -/
lemma keyMatch_iff (sid : String) (dt : Option DT) (r : FusedRec) :
    keyMatch sid dt r = true ↔ recKey r = (sid, dt) := by
  simp [keyMatch, recKey, Prod.ext_iff]

/-- A successful `updFirst` preserves the number of records. -/
lemma updFirst_length (p : FusedRec → Bool) (f : FusedRec → FusedRec) :
    ∀ st st' : List FusedRec, updFirst p f st = some st' → st'.length = st.length := by
  intro st
  induction st with
  | nil => intro st' h; cases h
  | cons r rs ih =>
    intro st' h
    by_cases hp : p r = true
    · simp only [updFirst, hp, if_true, Option.some.injEq] at h
      subst h
      simp
    · simp only [updFirst, hp, if_false, Bool.false_eq_true, Option.map_eq_some'] at h
      obtain ⟨rs', hrs', rfl⟩ := h
      simp [ih rs' hrs']

/-- The uv coercion can never output the sentinel value itself. -/
lemma uvCoerce_beq_sentinel (v : PyVal) : (uvCoerce v == some (-999 : ℚ)) = false := by
  rw [beq_eq_false_iff_ne]
  cases v with
  | vnone => simp [uvCoerce]
  | vstr t =>
    simp only [uvCoerce, pyFloat?]
    cases hp : parsePyFloat? t with
    | none => simp
    | some q => by_cases hq : q = -999 <;> simp [hq]
  | vnum q =>
    simp only [uvCoerce, pyFloat?]
    by_cases hq : q = -999 <;> simp [hq]

/-! ## Claims -/

/-- C1 counterexample: a fully missing feature row (all five weather inputs
absent, taken on a Monday at 14:00 so that no rush-hour, weekend or
temperature-extreme flag is active) does NOT score 50.0: the code still
applies both blend steps (missing temperature sub-score 100, missing pm10
sub-score 50) and produces 67.5. -/
theorem c1_counterexample :
    (addFeaturesRow ⟨"108", some ⟨2025, 6, 16, 14, 0⟩, none, none, none, none, none⟩).is_rush_hour
        = false ∧
    (addFeaturesRow ⟨"108", some ⟨2025, 6, 16, 14, 0⟩, none, none, none, none, none⟩).is_weekend
        = false ∧
    (addFeaturesRow ⟨"108", some ⟨2025, 6, 16, 14, 0⟩, none, none, none, none, none⟩).temp_extreme
        = false ∧
    (addFeaturesRow ⟨"108", some ⟨2025, 6, 16, 14, 0⟩, none, none, none, none, none⟩).comfort_score
        ≠ 50 := by
  refine ⟨by decide, by decide, by decide, ?_⟩
  have hd : daysBeforeMonth 2025 6 = 151 := by decide
  have h : (addFeaturesRow ⟨"108", some ⟨2025, 6, 16, 14, 0⟩, none, none, none, none, none⟩).comfort_score
      = 135 / 2 := by
    simp [addFeaturesRow, calculate_comfort_score, isRushHourRow, isWeekendRow, tempExtremeOf,
      hourOf, dowOf, tempSubScore, pm10SubScore, DT.dayOfWeek, hd]
    norm_num [npClip]
  rw [h]
  norm_num

/-- C1 (amended): for every feature row whose weather inputs are all missing
and whose rush-hour, weekend and temperature-extreme flags are all inactive,
the comfort score is exactly 67.5: the two blend steps are still applied,
with the missing-temperature sub-score 100 and the missing-pm10 sub-score
50, and no flag adjustment fires. -/
theorem c1_amended (r : FusedRec)
    (ht : r.temperature = none) (hp : r.pm10 = none)
    (hb : r.uv_uvb = none) (ha : r.uv_uva = none) (he : r.uv_euv = none)
    (hr : (addFeaturesRow r).is_rush_hour = false)
    (hw : (addFeaturesRow r).is_weekend = false)
    (hx : (addFeaturesRow r).temp_extreme = false) :
    (addFeaturesRow r).comfort_score = 135 / 2 := by
  simp only [addFeaturesRow] at hr hw hx ⊢
  rw [ht] at hx
  rw [ht, hp]
  simp only [calculate_comfort_score, hr, hw, hx, tempSubScore, pm10SubScore]
  norm_num [npClip]

/-- C1 witness: the amended theorem applied to a concrete all-missing row. -/
theorem c1_amended_witness :
    (addFeaturesRow ⟨"108", some ⟨2025, 6, 16, 14, 0⟩, none, none, none, none, none⟩).comfort_score
      = 135 / 2 :=
  c1_amended _ rfl rfl rfl rfl rfl (by decide) (by decide) (by decide)

/-- C3 (confirmed): the comfort score is a total function of its row and its
value always lies in the closed interval [0, 100] (the final `np.clip`), both
for the score calculator itself and for the score stored on every
feature-engineered row. -/
theorem c3_score_in_bounds (s : ScoreInput) (r : FusedRec) :
    0 ≤ calculate_comfort_score s ∧ calculate_comfort_score s ≤ 100 ∧
      0 ≤ (addFeaturesRow r).comfort_score ∧ (addFeaturesRow r).comfort_score ≤ 100 := by
  have clip_bounds : ∀ x : ℚ, 0 ≤ npClip x 0 100 ∧ npClip x 0 100 ≤ 100 := by
    intro x
    unfold npClip
    split_ifs with h1 h2 <;> constructor <;> linarith
  have key : ∀ t : ScoreInput, 0 ≤ calculate_comfort_score t ∧ calculate_comfort_score t ≤ 100 := by
    intro t
    simp only [calculate_comfort_score]
    exact clip_bounds _
  refine ⟨(key s).1, (key s).2, ?_, ?_⟩
  · simpa only [addFeaturesRow] using (key _).1
  · simpa only [addFeaturesRow] using (key _).2

/-- C9 counterexample: a row whose temperature is present but equal to −1000
falls below the finite sentinel bin edge −999, so `pd.cut` assigns it no
category at all, contradicting the claimed (−∞, 0] → very_cold bin. -/
theorem c9_counterexample :
    (addFeaturesRow ⟨"108", some ⟨2025, 6, 16, 14, 0⟩, some (-1000), none, none, none, none⟩).temp_category
        = none ∧
    (none : Option TempCat) ≠ some TempCat.very_cold := by
  refine ⟨by decide, by decide⟩

/-- Stated from the amended claim's wording, for comparison with the code:
missing temperature gets no category, and a present temperature is binned by
(−999, 0] → very_cold, (0, 10] → cold, (10, 20] → mild, (20, 30] → warm,
(30, 999] → hot, with temperatures at or below −999 or above 999 receiving
no category. -/
def tempCategoryAmended (t : Option ℚ) : Option TempCat :=
  match t with
  | none => none
  | some x =>
    if x ≤ -999 then none
    else if x ≤ 0 then some .very_cold
    else if x ≤ 10 then some .cold
    else if x ≤ 20 then some .mild
    else if x ≤ 30 then some .warm
    else if x ≤ 999 then some .hot
    else none

/-- C9 (amended): `temp_category` equals the sentinel-bounded binning: bins
(−999, 0] → very_cold, (0, 10] → cold, (10, 20] → mild, (20, 30] → warm,
(30, 999] → hot; temperatures at or below −999 or above 999 get no category,
and a missing temperature gets no category rather than a default. -/
theorem c9_amended (t : Option ℚ) (r : FusedRec) :
    tempCategoryOf t = tempCategoryAmended t ∧
      (addFeaturesRow r).temp_category = tempCategoryAmended r.temperature := by
  have key : ∀ u : Option ℚ, tempCategoryOf u = tempCategoryAmended u := by
    intro u
    cases u with
    | none => rfl
    | some x =>
      rcases le_or_lt x (-999) with hs | hs
      · have n1 : ¬(-999 : ℚ) < x := not_lt.mpr hs
        have n2 : ¬(0 : ℚ) < x := by intro hc; linarith
        have n3 : ¬(10 : ℚ) < x := by intro hc; linarith
        have n4 : ¬(20 : ℚ) < x := by intro hc; linarith
        have n5 : ¬(30 : ℚ) < x := by intro hc; linarith
        simp [tempCategoryOf, tempCategoryAmended, pdCut, n1, n2, n3, n4, n5, hs]
      · have ns : ¬x ≤ (-999 : ℚ) := not_le.mpr hs
        rcases le_or_lt x 0 with h0 | h0
        · simp [tempCategoryOf, tempCategoryAmended, pdCut, hs, h0, ns]
        · have n0 : ¬x ≤ (0 : ℚ) := not_le.mpr h0
          rcases le_or_lt x 10 with h10 | h10
          · simp [tempCategoryOf, tempCategoryAmended, pdCut, hs, h0, h10, ns, n0]
          · have n10 : ¬x ≤ (10 : ℚ) := not_le.mpr h10
            rcases le_or_lt x 20 with h20 | h20
            · simp [tempCategoryOf, tempCategoryAmended, pdCut, hs, h0, h10, h20, ns, n0, n10]
            · have n20 : ¬x ≤ (20 : ℚ) := not_le.mpr h20
              rcases le_or_lt x 30 with h30 | h30
              · simp [tempCategoryOf, tempCategoryAmended, pdCut, hs, h0, h10, h20, h30,
                  ns, n0, n10, n20]
              · have n30 : ¬x ≤ (30 : ℚ) := not_le.mpr h30
                rcases le_or_lt x 999 with h999 | h999
                · simp [tempCategoryOf, tempCategoryAmended, pdCut, hs, h30, h999,
                    ns, n0, n10, n20, n30]
                · have n999 : ¬x ≤ (999 : ℚ) := not_le.mpr h999
                  simp [tempCategoryOf, tempCategoryAmended, pdCut, hs, h30,
                    ns, n0, n10, n20, n30, n999]
  exact ⟨key t, by simpa only [addFeaturesRow] using key r.temperature⟩

/-- C10 (confirmed): `load_latest_ml_dataset` ignores `days_back` entirely
and returns the table stored at the lexicographically greatest `.parquet`
key under the `ml_dataset/` prefix, or nothing when no such key exists. -/
theorem c10_load_latest (st : S3Store) (d1 d2 : Nat) :
    load_latest_ml_dataset st d1 = load_latest_ml_dataset st d2 ∧
      load_latest_ml_dataset st d1 = latestParquetSpec st := by
  have hff : ∀ (p q : String → Bool) (L : List String),
      (L.filter p).filter q = L.filter (fun a => p a && q a) := by
    intro p q L
    induction L with
    | nil => rfl
    | cons a as ih =>
      cases hp : p a <;> cases hq : q a <;> simp [List.filter_cons, hp, hq, ih]
  refine ⟨rfl, ?_⟩
  simp only [load_latest_ml_dataset, latestParquetSpec, list_objects,
    ← hff (fun k => pyStartsWith "ml_dataset/" k) (fun k => pyEndsWith ".parquet" k)]
  split_ifs with h1 h2
  · rw [List.isEmpty_iff] at h1
    rw [h1]
    simp [pyMaxStr]
  · rw [List.isEmpty_iff] at h2
    rw [h2]
    simp [pyMaxStr]
  · rfl

/-- C4 counterexample: processing a particulate record FIRST and then a
ground-station record for the same (station, hour) key yields TWO partial
fused rows, not one row with both fields: the ground-station step appends
unconditionally and never looks up an existing entry, so the claimed
order-independence fails. -/
theorem c4_counterexample :
    (asosStep (pm10Step [] ⟨"108", some ⟨2025, 1, 1, 13, 0⟩, .vnum 42, .vnone, .vnone⟩)
        ⟨"108", some ⟨2025, 1, 1, 13, 0⟩, .vstr "5", .vnone, .vnone⟩).length = 2 ∧
    (asosStep (pm10Step [] ⟨"108", some ⟨2025, 1, 1, 13, 0⟩, .vnum 42, .vnone, .vnone⟩)
        ⟨"108", some ⟨2025, 1, 1, 13, 0⟩, .vstr "5", .vnone, .vnone⟩).map
          (fun r => (r.temperature.isSome, r.pm10.isSome)) = [(false, true), (true, false)] := by
  exact ⟨by decide, by decide⟩

/-- C4 (amended): in the implemented source order (ground-station first, then
particulate), one ground-station record and one particulate record sharing
the same (station_id, datetime) key and carrying coercible numeric values
fuse into exactly one row with both temperature and pm10 populated. In the
reverse order this fails, because the ground-station step appends without
looking up existing entries. -/
theorem c4_amended (sid : String) (dt : DT) (va vp : PyVal) (qa qp : ℚ)
    (hva : asosValueCheck va = true) (hqa : pyFloat? va = some qa)
    (hqp : pm10Coerce vp = some qp) :
    create_ml_dataset
        ⟨[⟨sid, some dt, va, .vnone, .vnone⟩], [⟨sid, some dt, vp, .vnone, .vnone⟩], []⟩
      = [addFeaturesRow ⟨sid, some dt, some qa, some qp, none, none, none⟩] := by
  have h1 : asosStep [] ⟨sid, some dt, va, .vnone, .vnone⟩
      = [⟨sid, some dt, some qa, none, none, none, none⟩] := by
    simp [asosStep, hva, hqa]
  have h2 : pm10Step [⟨sid, some dt, some qa, none, none, none, none⟩]
        ⟨sid, some dt, vp, .vnone, .vnone⟩
      = [⟨sid, some dt, some qa, some qp, none, none, none⟩] := by
    simp [pm10Step, hqp, updFirst, keyMatch]
  simp only [create_ml_dataset, fuseAll, List.foldl_cons, List.foldl_nil, h1, h2]
  simp [List.insertionSort, List.orderedInsert]

/-- C4 witness: the amended theorem at a concrete station, hour and pair of
numeric values. -/
theorem c4_amended_witness :
    create_ml_dataset
        ⟨[⟨"108", some ⟨2025, 1, 1, 13, 0⟩, .vnum (26 / 5), .vnone, .vnone⟩],
         [⟨"108", some ⟨2025, 1, 1, 13, 0⟩, .vnum 42, .vnone, .vnone⟩], []⟩
      = [addFeaturesRow ⟨"108", some ⟨2025, 1, 1, 13, 0⟩, some (26 / 5), some 42,
          none, none, none⟩] :=
  c4_amended "108" ⟨2025, 1, 1, 13, 0⟩ (.vnum (26 / 5)) (.vnum 42) (26 / 5) 42
    (by simp only [asosValueCheck, bne_iff_ne, ne_eq]; norm_num) rfl rfl

/-- The token `1e5`, although non-numeric after stripping signs and decimal
points, is a valid Python float literal with value 100000. -/
lemma parsePyFloat_1e5 : parsePyFloat? "1e5" = some 100000 := by
  have h : parsePyFloat? "1e5"
      = some (((digitsValL "1".data : ℕ) : ℚ)
          * (10 : ℚ) ^ ((digitsValL "5".data : ℕ) : ℤ)) := rfl
  have h1 : digitsValL "1".data = 1 := by decide
  have h5 : digitsValL "5".data = 5 := by decide
  rw [h, h1, h5]
  norm_num

/-- C5 counterexample: the value token `1e5` is a non-numeric string after
stripping sign and decimal-point characters (the digit check fails), yet the
particulate and ultraviolet fusion steps, which apply a bare `float()`,
store it as the number 100000.0 — not as missing — so the claim fails. -/
theorem c5_counterexample :
    pyIsdigit (stripDotDash "1e5") = false ∧
    pm10Step [] ⟨"108", some ⟨2025, 1, 1, 13, 0⟩, .vstr "1e5", .vnone, .vnone⟩
        = [⟨"108", some ⟨2025, 1, 1, 13, 0⟩, none, some 100000, none, none, none⟩] ∧
    uvStep [] ⟨"108", some ⟨2025, 1, 1, 13, 0⟩, .vstr "1e5", .vstr "1e5", .vstr "1e5"⟩
        = [⟨"108", some ⟨2025, 1, 1, 13, 0⟩, none, none,
            some 100000, some 100000, some 100000⟩] ∧
    (some (100000 : ℚ)) ≠ (none : Option ℚ) := by
  have hc : uvCoerce (.vstr "1e5") = some 100000 := by
    simp only [uvCoerce, pyFloat?, parsePyFloat_1e5]
    rw [if_neg (by norm_num)]
  refine ⟨by decide, ?_, ?_, by simp⟩
  · simp [pm10Step, pm10Coerce, pyFloat?, parsePyFloat_1e5, updFirst]
  · simp [uvStep, hc, updFirst]

/-- C5 (amended): the silent-missing policy is per-source, not uniform. The
ground-station step really applies the stripping digit check: an ASCII value
string failing it is stored with temperature missing and the record kept.
The particulate and ultraviolet steps apply a bare `float()` instead: an
ASCII string `float()` rejects is stored as missing with the record kept,
but a string `float()` accepts — even one that is non-numeric after
stripping sign and decimal points, such as `1e5` or `1_000` — is stored as
its numeric value. No value ever raises out of a step, and no step ever
drops an existing record. -/
theorem c5_amended (st st2 : List FusedRec) (sid : String) (dt : Option DT)
    (s1 s2 s3 sp su : String) (qp qu : ℚ)
    (ha1 : isAsciiStr s1 = true)
    (hd : pyIsdigit (stripDotDash s1) = false)
    (ha2 : isAsciiStr s2 = true)
    (h2 : pyFloatLit? s2 = none)
    (ha3 : isAsciiStr s3 = true)
    (h3 : pyFloatLit? s3 = none)
    (hp : parsePyFloat? sp = some qp)
    (hu : parsePyFloat? su = some qu)
    (hu999 : qu ≠ -999)
    (hfresh : st.all (fun r => !(keyMatch sid dt r)) = true) :
    asosStep st ⟨sid, dt, .vstr s1, .vnone, .vnone⟩
        = st ++ [⟨sid, dt, none, none, none, none, none⟩] ∧
    pm10Step st ⟨sid, dt, .vstr s2, .vnone, .vnone⟩
        = st ++ [⟨sid, dt, none, none, none, none, none⟩] ∧
    uvStep st ⟨sid, dt, .vstr s3, .vstr s3, .vstr s3⟩
        = st ++ [⟨sid, dt, none, none, none, none, none⟩] ∧
    pm10Step st ⟨sid, dt, .vstr sp, .vnone, .vnone⟩
        = st ++ [⟨sid, dt, none, some qp, none, none, none⟩] ∧
    uvStep st ⟨sid, dt, .vstr su, .vstr su, .vstr su⟩
        = st ++ [⟨sid, dt, none, none, some qu, some qu, some qu⟩] ∧
    st2.length ≤ (pm10Step st2 ⟨sid, dt, .vstr s2, .vnone, .vnone⟩).length ∧
    st2.length ≤ (uvStep st2 ⟨sid, dt, .vstr s3, .vstr s3, .vstr s3⟩).length := by
  have hlen : ∀ (g : FusedRec → FusedRec) (nr : FusedRec),
      st2.length ≤ (match updFirst (keyMatch sid dt) g st2 with
        | some st' => st'
        | none => st2 ++ [nr]).length := by
    intro g nr
    cases hu : updFirst (keyMatch sid dt) g st2 with
    | some st' => rw [updFirst_length _ _ st2 st' hu]
    | none => simp
  have h2' : parsePyFloat? s2 = none := by simp [parsePyFloat?, h2]
  have h3' : parsePyFloat? s3 = none := by simp [parsePyFloat?, h3]
  have hcu : uvCoerce (.vstr su) = some qu := by
    simp only [uvCoerce, pyFloat?, hu]
    rw [if_neg hu999]
  refine ⟨?_, ?_, ?_, ?_, ?_, ?_, ?_⟩
  · simp [asosStep, asosValueCheck, hd]
  · simp [pm10Step, pm10Coerce, pyFloat?, h2', updFirst_eq_none _ _ st hfresh]
  · simp [uvStep, uvCoerce, pyFloat?, h3', updFirst_eq_none _ _ st hfresh]
  · simp [pm10Step, pm10Coerce, pyFloat?, hp, updFirst_eq_none _ _ st hfresh]
  · simp [uvStep, hcu, updFirst_eq_none _ _ st hfresh]
  · simpa only [pm10Step] using hlen _ _
  · simpa only [uvStep] using hlen _ _

/-- C5 witness: the amended theorem at concrete strings — `abc`/`x` rejected
by `float()` and stored missing, `42` and `1e5` accepted and stored as
numbers — against an empty fusion state. -/
theorem c5_amended_witness :
    asosStep [] ⟨"108", some ⟨2025, 1, 1, 13, 0⟩, .vstr "abc", .vnone, .vnone⟩
        = [⟨"108", some ⟨2025, 1, 1, 13, 0⟩, none, none, none, none, none⟩] ∧
    pm10Step [] ⟨"108", some ⟨2025, 1, 1, 13, 0⟩, .vstr "abc", .vnone, .vnone⟩
        = [⟨"108", some ⟨2025, 1, 1, 13, 0⟩, none, none, none, none, none⟩] ∧
    uvStep [] ⟨"108", some ⟨2025, 1, 1, 13, 0⟩, .vstr "x", .vstr "x", .vstr "x"⟩
        = [⟨"108", some ⟨2025, 1, 1, 13, 0⟩, none, none, none, none, none⟩] ∧
    pm10Step [] ⟨"108", some ⟨2025, 1, 1, 13, 0⟩, .vstr "42", .vnone, .vnone⟩
        = [⟨"108", some ⟨2025, 1, 1, 13, 0⟩, none, some 42, none, none, none⟩] ∧
    uvStep [] ⟨"108", some ⟨2025, 1, 1, 13, 0⟩, .vstr "1e5", .vstr "1e5", .vstr "1e5"⟩
        = [⟨"108", some ⟨2025, 1, 1, 13, 0⟩, none, none,
            some 100000, some 100000, some 100000⟩] ∧
    ([] : List FusedRec).length
        ≤ (pm10Step [] ⟨"108", some ⟨2025, 1, 1, 13, 0⟩, .vstr "abc", .vnone, .vnone⟩).length ∧
    ([] : List FusedRec).length
        ≤ (uvStep [] ⟨"108", some ⟨2025, 1, 1, 13, 0⟩, .vstr "x", .vstr "x", .vstr "x"⟩).length :=
  c5_amended [] [] "108" (some ⟨2025, 1, 1, 13, 0⟩) "abc" "abc" "x" "42" "1e5" 42 100000
    (by decide) (by decide) (by decide) (by decide) (by decide) (by decide)
    (by
      have h : parsePyFloat? "42" = some ((digitsValL "42".data : ℕ) : ℚ) := rfl
      have h42 : digitsValL "42".data = 42 := by decide
      rw [h, h42]
      norm_num)
    parsePyFloat_1e5
    (by norm_num)
    rfl

/-- C6 counterexample: the ultraviolet parser does NOT normalise the sentinel
in its own output record: parsing a line whose three uv tokens are all
`-999.0` yields a record whose value field still holds the literal token
string, not a missing value. -/
theorem c6_counterexample :
    (parse_uv_raw ⟨2030, 1, 1, 0, 0⟩ "202501011300 108 -999.0 -999.0 -999.0").map
        ObsRecord.value = [.vstr "-999.0"] ∧
    PyVal.vstr "-999.0" ≠ PyVal.vnone := by
  exact ⟨by decide, by decide⟩

/-- C6 (amended): the −999.0 sentinel is normalised to missing during fusion
rather than by the parser: a uv token parsing to −999 coerces to missing, a
uv source row whose UVB token parses to −999 fuses to a row with `uv_uvb`
missing, and no fused uv field can ever hold the literal value −999. -/
theorem c6_amended (st : List FusedRec) (sid : String) (dt : Option DT)
    (s : String) (ua ue v : PyVal)
    (hs : parsePyFloat? s = some (-999))
    (hfresh : st.all (fun r => !(keyMatch sid dt r)) = true) :
    uvCoerce (.vstr s) = none ∧
    uvStep st ⟨sid, dt, .vstr s, ua, ue⟩
        = st ++ [⟨sid, dt, none, none, none, uvCoerce ua, uvCoerce ue⟩] ∧
    (uvCoerce v == some (-999 : ℚ)) = false := by
  have hc : uvCoerce (.vstr s) = none := by
    simp [uvCoerce, pyFloat?, hs]
  refine ⟨hc, ?_, uvCoerce_beq_sentinel v⟩
  simp [uvStep, hc, updFirst_eq_none _ _ st hfresh]

/-- C6 witness: the amended theorem at the concrete sentinel token. -/
theorem c6_amended_witness :
    uvCoerce (.vstr "-999.0") = none ∧
    uvStep [] ⟨"108", some ⟨2025, 1, 1, 13, 0⟩, .vstr "-999.0", .vstr "1.0", .vstr "2.0"⟩
        = [⟨"108", some ⟨2025, 1, 1, 13, 0⟩, none, none, none,
            uvCoerce (.vstr "1.0"), uvCoerce (.vstr "2.0")⟩] ∧
    (uvCoerce (.vstr "-999.0") == some (-999 : ℚ)) = false :=
  c6_amended [] "108" (some ⟨2025, 1, 1, 13, 0⟩) "-999.0" (.vstr "1.0") (.vstr "2.0")
    (.vstr "-999.0")
    (by
      have h1 : parsePyFloat? "-999.0"
          = some (-(((digitsValL "999".data : ℕ) : ℚ)
              + ((digitsValL "0".data : ℕ) : ℚ) / (10 : ℚ) ^ digitCountL "0".data)) := rfl
      have h2 : digitsValL "999".data = 999 := by decide
      have h3 : digitsValL "0".data = 0 := by decide
      have h4 : digitCountL "0".data = 1 := by decide
      rw [h1, h2, h3, h4]
      norm_num)
    rfl

/-- A line list of comments and blanks filters to nothing. -/
lemma filter_keepLine_eq_nil (ls : List String)
    (h : ls.all (fun l => pyStartsWith "#" l || pyIsEmptyStr (pyStrip l)) = true) :
    ls.filter keepLine = [] := by
  rw [List.filter_eq_nil_iff]
  intro a ha
  have h1 := List.all_eq_true.mp h a ha
  rw [Bool.or_eq_true] at h1
  rcases h1 with h2 | h2 <;> simp [keepLine, h2]

/-- Removing a line that contributes no records (filtered out, or parsed to
nothing) does not change the records produced from the remaining lines. -/
lemma flatMap_filter_skip (f : String → List ObsRecord) (pre post : List String) (l : String)
    (hbad : keepLine l = false ∨ f l = []) :
    ((pre ++ l :: post).filter keepLine).flatMap f
      = ((pre ++ post).filter keepLine).flatMap f := by
  rcases hbad with hb | hb
  · simp [List.filter_append, List.filter_cons, hb]
  · by_cases hk : keepLine l = true
    · simp [List.filter_append, List.filter_cons, hk, hb]
    · simp [List.filter_append, List.filter_cons, Bool.eq_false_iff.mpr hk]

/-- C7 (confirmed): each of the three parsers is a total function of the raw
payload; a payload whose lines are all comments or blanks parses to the
empty record sequence for all three parsers, and a malformed line (one that
is filtered out or yields no record) never aborts parsing: deleting it from
the payload leaves the parsed records of every other line unchanged. -/
theorem c7_parsers_total (now : DT) (raw : String)
    (hall : (splitLinesPy raw).all
      (fun l => pyStartsWith "#" l || pyIsEmptyStr (pyStrip l)) = true)
    (rA rA' : String) (preA postA : List String) (lA : String)
    (hA : splitLinesPy rA = preA ++ lA :: postA)
    (hA' : splitLinesPy rA' = preA ++ postA)
    (hbadA : keepLine lA = false ∨ asosLineRecords now lA = [])
    (rP rP' : String) (preP postP : List String) (lP : String)
    (hP : splitLinesPy rP = preP ++ lP :: postP)
    (hP' : splitLinesPy rP' = preP ++ postP)
    (hbadP : keepLine lP = false ∨ pm10LineRecords now lP = [])
    (rU rU' : String) (preU postU : List String) (lU : String)
    (hU : splitLinesPy rU = preU ++ lU :: postU)
    (hU' : splitLinesPy rU' = preU ++ postU)
    (hbadU : keepLine lU = false ∨ uvLineRecords now lU = []) :
    parse_asos_raw now raw = [] ∧ parse_pm10_raw now raw = [] ∧ parse_uv_raw now raw = [] ∧
    parse_asos_raw now rA = parse_asos_raw now rA' ∧
    parse_pm10_raw now rP = parse_pm10_raw now rP' ∧
    parse_uv_raw now rU = parse_uv_raw now rU' := by
  have hnil := filter_keepLine_eq_nil _ hall
  refine ⟨?_, ?_, ?_, ?_, ?_, ?_⟩
  · simp [parse_asos_raw, hnil]
  · simp [parse_pm10_raw, hnil]
  · simp [parse_uv_raw, hnil]
  · simp only [parse_asos_raw, hA, hA']
    exact flatMap_filter_skip _ _ _ _ hbadA
  · simp only [parse_pm10_raw, hP, hP']
    exact flatMap_filter_skip _ _ _ _ hbadP
  · simp only [parse_uv_raw, hU, hU']
    exact flatMap_filter_skip _ _ _ _ hbadU

/-- C7 witness: a comment-and-blank payload parses to nothing, and deleting
a concrete malformed line from a concrete payload leaves each parser's
output unchanged. -/
theorem c7_parsers_total_witness :
    parse_asos_raw ⟨2030, 1, 1, 0, 0⟩ "# a\n   \n# b" = [] ∧
    parse_pm10_raw ⟨2030, 1, 1, 0, 0⟩ "# a\n   \n# b" = [] ∧
    parse_uv_raw ⟨2030, 1, 1, 0, 0⟩ "# a\n   \n# b" = [] ∧
    parse_asos_raw ⟨2030, 1, 1, 0, 0⟩ "# h\nx\n202501011300 108 5.2"
      = parse_asos_raw ⟨2030, 1, 1, 0, 0⟩ "# h\n202501011300 108 5.2" ∧
    parse_pm10_raw ⟨2030, 1, 1, 0, 0⟩ "# h\nx\n202501011300,108,42"
      = parse_pm10_raw ⟨2030, 1, 1, 0, 0⟩ "# h\n202501011300,108,42" ∧
    parse_uv_raw ⟨2030, 1, 1, 0, 0⟩ "# h\n1 2 3 4\n202501011300 108 0.5 1.0 2.0"
      = parse_uv_raw ⟨2030, 1, 1, 0, 0⟩ "# h\n202501011300 108 0.5 1.0 2.0" :=
  c7_parsers_total ⟨2030, 1, 1, 0, 0⟩ "# a\n   \n# b" (by decide)
    "# h\nx\n202501011300 108 5.2" "# h\n202501011300 108 5.2"
    ["# h"] ["202501011300 108 5.2"] "x" (by decide) (by decide) (Or.inr (by decide))
    "# h\nx\n202501011300,108,42" "# h\n202501011300,108,42"
    ["# h"] ["202501011300,108,42"] "x" (by decide) (by decide) (Or.inr (by decide))
    "# h\n1 2 3 4\n202501011300 108 0.5 1.0 2.0" "# h\n202501011300 108 0.5 1.0 2.0"
    ["# h"] ["202501011300 108 0.5 1.0 2.0"] "1 2 3 4" (by decide) (by decide)
    (Or.inr (by decide))

/-- An asos step appends at most one record, whose key is the row's key. -/
lemma asosStep_shape (st : List FusedRec) (row : SourceRow) :
    ∃ t, asosStep st row = st ++ t ∧ (t.map recKey).Sublist [srcKey row] := by
  unfold asosStep
  by_cases hv : asosValueCheck row.value = true
  · rw [if_pos hv]
    cases pyFloat? row.value with
    | none => exact ⟨[], by simp, by simp⟩
    | some q => exact ⟨[⟨row.station_id, row.datetime, some q, none, none, none, none⟩],
        rfl, by simp [recKey, srcKey]⟩
  · rw [if_neg hv]
    exact ⟨[⟨row.station_id, row.datetime, none, none, none, none, none⟩],
      rfl, by simp [recKey, srcKey]⟩

/-- Folding the asos step over a row list only appends records whose keys
form a sublist of the rows' keys. -/
lemma asos_foldl_keys : ∀ (rows : List SourceRow) (st : List FusedRec),
    ∃ l, ((rows.foldl asosStep st).map recKey) = st.map recKey ++ l
      ∧ l.Sublist (rows.map srcKey) := by
  intro rows
  induction rows with
  | nil => intro st; exact ⟨[], by simp, by simp⟩
  | cons row rest ih =>
    intro st
    obtain ⟨t, ht, hts⟩ := asosStep_shape st row
    obtain ⟨l, hl, hls⟩ := ih (asosStep st row)
    refine ⟨t.map recKey ++ l, ?_, ?_⟩
    · rw [List.foldl_cons, hl, ht]
      simp
    · simpa using List.Sublist.append hts hls

/-- An update-or-append fusion step preserves uniqueness of the key list,
provided the update preserves keys and the appended record carries the
looked-up key. -/
lemma updOrAppend_nodup (sid : String) (dt : Option DT) (f : FusedRec → FusedRec)
    (nr : FusedRec) (hf : ∀ r, recKey (f r) = recKey r) (hnr : recKey nr = (sid, dt))
    (st : List FusedRec) (h : (st.map recKey).Nodup) :
    ((match updFirst (keyMatch sid dt) f st with
      | some st' => st'
      | none => st ++ [nr]).map recKey).Nodup := by
  cases hu : updFirst (keyMatch sid dt) f st with
  | some st' =>
    simpa [updFirst_map_recKey _ _ hf st st' hu] using h
  | none =>
    have hnotin : (sid, dt) ∉ st.map recKey := by
      intro hmem
      rcases List.mem_map.mp hmem with ⟨r, hr, hkey⟩
      have hfalse := updFirst_none_forall _ f st hu r hr
      rw [(keyMatch_iff sid dt r).mpr hkey] at hfalse
      cases hfalse
    simp only [List.map_append, List.map_cons, List.map_nil, hnr]
    refine List.Nodup.append h (List.nodup_singleton _) ?_
    intro x hx hx2
    rw [List.mem_singleton] at hx2
    subst hx2
    exact hnotin hx

/-- The pm10 fusion fold preserves uniqueness of fused-record keys. -/
lemma pm10_foldl_nodup : ∀ (rows : List SourceRow) (st : List FusedRec),
    (st.map recKey).Nodup → (((rows.foldl pm10Step st)).map recKey).Nodup := by
  intro rows
  induction rows with
  | nil => intro st h; exact h
  | cons row rest ih =>
    intro st h
    rw [List.foldl_cons]
    refine ih _ ?_
    simpa only [pm10Step] using
      updOrAppend_nodup row.station_id row.datetime
        (fun r => { r with pm10 := pm10Coerce row.value })
        ⟨row.station_id, row.datetime, none, pm10Coerce row.value, none, none, none⟩
        (fun r => rfl) rfl st h

/-- The uv fusion fold preserves uniqueness of fused-record keys. -/
lemma uv_foldl_nodup : ∀ (rows : List SourceRow) (st : List FusedRec),
    (st.map recKey).Nodup → (((rows.foldl uvStep st)).map recKey).Nodup := by
  intro rows
  induction rows with
  | nil => intro st h; exact h
  | cons row rest ih =>
    intro st h
    rw [List.foldl_cons]
    refine ih _ ?_
    simpa only [uvStep] using
      updOrAppend_nodup row.station_id row.datetime
        (fun r => { r with
          uv_uvb := uvCoerce row.value
          uv_uva := uvCoerce row.uva_value
          uv_euv := uvCoerce row.euv_value })
        ⟨row.station_id, row.datetime, none, none, uvCoerce row.value,
          uvCoerce row.uva_value, uvCoerce row.euv_value⟩
        (fun r => rfl) rfl st h

/-- The projection of the final feature rows onto their fused part is exactly
the sorted, datetime-filtered fused record list. -/
lemma create_ml_dataset_map_base (raw : RawData) :
    (create_ml_dataset raw).map FeatRow.base
      = List.insertionSort fusedLe ((fuseAll raw).filter (fun r => r.datetime.isSome)) := by
  simp only [create_ml_dataset, List.map_map]
  have hcomp : (FeatRow.base ∘ addFeaturesRow) = id := rfl
  rw [hcomp, List.map_id]

/-- C2 counterexample: two identical ground-station records for the same
(station_id, datetime) key each create their own entry (the asos loop never
looks up existing records), so the final dataset holds TWO rows with the
same key. -/
theorem c2_counterexample :
    ¬ ((create_ml_dataset ⟨[⟨"108", some ⟨2025, 1, 1, 13, 0⟩, .vstr "5", .vnone, .vnone⟩,
          ⟨"108", some ⟨2025, 1, 1, 13, 0⟩, .vstr "5", .vnone, .vnone⟩], [], []⟩).map
            (fun fr => recKey fr.base)).Nodup := by
  decide

/-- C2 (amended): at most one record per (station_id, datetime) key holds
provided the ground-station source itself contains no duplicate keys:
ground-station records always create entries (never update), while
particulate and ultraviolet records update the first existing entry for
their key and only create one when none exists. -/
theorem c2_amended (raw : RawData) (h : (raw.asos.map srcKey).Nodup) :
    ((create_ml_dataset raw).map (fun fr => recKey fr.base)).Nodup := by
  obtain ⟨l, hl, hsub⟩ := asos_foldl_keys raw.asos []
  have h1 : ((raw.asos.foldl asosStep []).map recKey).Nodup := by
    rw [hl]
    simpa using (hsub.nodup h)
  have h2 := pm10_foldl_nodup raw.pm10 _ h1
  have h3 : ((fuseAll raw).map recKey).Nodup := by
    unfold fuseAll
    exact uv_foldl_nodup raw.uv _ h2
  have h4 : (((fuseAll raw).filter (fun r => r.datetime.isSome)).map recKey).Nodup :=
    ((List.filter_sublist _).map recKey).nodup h3
  have h5 : ((List.insertionSort fusedLe
      ((fuseAll raw).filter (fun r => r.datetime.isSome))).map recKey).Nodup := by
    have hperm := (List.perm_insertionSort fusedLe
      ((fuseAll raw).filter (fun r => r.datetime.isSome))).map recKey
    exact hperm.nodup_iff.mpr h4
  have h6 := create_ml_dataset_map_base raw
  have h7 : ((create_ml_dataset raw).map (fun fr => recKey fr.base))
      = ((create_ml_dataset raw).map FeatRow.base).map recKey := by
    rw [List.map_map]
    rfl
  rw [h7, h6]
  exact h5

/-- C2 witness: the amended theorem at a concrete input with two distinct
asos keys plus a pm10 update for one of them. -/
theorem c2_amended_witness :
    ((create_ml_dataset ⟨[⟨"108", some ⟨2025, 1, 1, 13, 0⟩, .vstr "5", .vnone, .vnone⟩,
        ⟨"109", some ⟨2025, 1, 1, 13, 0⟩, .vstr "6", .vnone, .vnone⟩],
        [⟨"108", some ⟨2025, 1, 1, 13, 0⟩, .vnum 42, .vnone, .vnone⟩], []⟩).map
          (fun fr => recKey fr.base)).Nodup :=
  c2_amended _ (by decide)

/-- C8 (confirmed): the final dataset is the fused record collection with
the rows lacking a datetime removed (a permutation of the datetime-filtered
fused list) and the remaining rows sorted ascending by (datetime,
station_id); in particular every emitted row carries a datetime. -/
theorem c8_drop_and_sort (raw : RawData) :
    ((create_ml_dataset raw).map FeatRow.base).Perm
        ((fuseAll raw).filter (fun r => r.datetime.isSome)) ∧
    List.Sorted fusedLe ((create_ml_dataset raw).map FeatRow.base) ∧
    (create_ml_dataset raw).all (fun fr => fr.base.datetime.isSome) = true := by
  have hmb := create_ml_dataset_map_base raw
  refine ⟨?_, ?_, ?_⟩
  · rw [hmb]
    exact List.perm_insertionSort _ _
  · rw [hmb]
    exact List.sorted_insertionSort _ _
  · rw [List.all_eq_true]
    intro fr hfr
    have hmem : fr.base ∈ (create_ml_dataset raw).map FeatRow.base :=
      List.mem_map_of_mem _ hfr
    rw [hmb] at hmem
    have h2 : fr.base ∈ (fuseAll raw).filter (fun r => r.datetime.isSome) :=
      (List.perm_insertionSort _ _).mem_iff.mp hmem
    exact (List.mem_filter.mp h2).2

end WeatherPipeline
